import Mathlib

/-
  Verification of the vscode-journal core against its specification.

  The development shallowly embeds the two source files under src/
  (the Journal class of journal.ts and the Configuration module of
  config.ts).  External collaborators (the vscode document store, the
  user-input boxes, the utility path/date helpers and the input parser,
  whose sources are not part of src/) are modelled as an explicit
  environment record: every call the Journal class makes into a
  collaborator is answered by a field of that record.  The manual
  Q-deferred promise style of the source is modelled by an explicit
  settlement state in which the first settlement wins, plus explicit
  effect lists (files created, memo writes, link insertions, error
  messages shown).
-/

namespace VJ

/-- A JavaScript number as used for day offsets: an integer or NaN
(`isNaN(offset)` is the only float-specific test the source performs). -/
inductive JSNum where
  | int (n : Int)
  | nan
deriving Repr, DecidableEq

def JSNum.isNaN : JSNum → Bool
  | .int _ => false
  | .nan => true

/-- A loaded text document of the host editor, reduced to the two pieces
of data the embedded code observes: its path (doc.uri.path) and its
content. -/
structure Doc where
  path : String
  content : String
deriving Repr, DecidableEq

/-- Modelled from the spec: the Input value produced by the tokenizer
(the Input class lives in util.ts, which is not under src/).  Spec data
model: Input = rawText, offset (integer or null), memo (string or
null), flags (set of strings).  An unparsable date token is deferred as
a NaN offset, which the isNaN guard in Journal.getPageForDay rejects. -/
structure Input where
  offset : JSNum
  memo : Option String
  flags : List String
deriving Repr, DecidableEq

/-- Modelled from the spec: Input.hasMemo (accessor of the Input class
in util.ts, not under src/): whether the Input carries memo text. -/
def Input.hasMemo (i : Input) : Bool := i.memo.isSome

/-- Modelled from the spec: Input.hasFlags (accessor of the Input class
in util.ts, not under src/): whether the Input carries any flag. -/
def Input.hasFlags (i : Input) : Bool := !i.flags.isEmpty

/-- config.ts: interface InlineTemplate. -/
structure InlineTemplate where
  scope : String
  id : String
  template : String
  after : String
deriving Repr, DecidableEq

/-- config.ts: interface Page (templates plus path and file patterns). -/
structure Page where
  templates : List InlineTemplate
  path : String
  file : String
deriving Repr, DecidableEq

/-- config.ts: interface Scope (a named template namespace with a note
page and an entry page). -/
structure Scope where
  name : String
  note : Page
  entry : Page
deriving Repr, DecidableEq

/-- config.ts: interface Root (the parsed journal configuration). -/
structure Root where
  scopes : List Scope
deriving Repr, DecidableEq

/-- config.ts: const SCOPE_DEFAULT = "default". -/
def SCOPE_DEFAULT : String := "default"

/-- JS truthiness applied to the optional scope id argument
(`scopeId ? scopeId : SCOPE_DEFAULT`): undefined and the empty string
are falsy and fall back to SCOPE_DEFAULT. -/
def scopeOrDefault : Option String → String
  | some s => if s = "" then SCOPE_DEFAULT else s
  | none => SCOPE_DEFAULT

/-- Whether the first list is a prefix of the second (on characters);
executable companion of JS String.startsWith. -/
def charsStartWith : List Char → List Char → Bool
  | [], _ => true
  | _ :: _, [] => false
  | p :: ps, c :: cs => p == c && charsStartWith ps cs

/-- JS String.startsWith, computed on the character lists (the core
String.startsWith does not reduce in the kernel). -/
def strStartsWith (s pre : String) : Bool := charsStartWith pre.data s.data

/-- config.ts: function findScope — finds the first scope whose name
starts with the requested scope id (startsWith, not equality), with the
JS-falsy fallback to the default id.  Returns none when no scope
matches (JS: undefined). -/
def findScope (scopes : List Scope) (scopeId : Option String) : Option Scope :=
  scopes.find? (fun val => strStartsWith val.name (scopeOrDefault scopeId))

/-- config.ts: function findTemplate — finds the first inline template
whose id starts with the requested template id.  Returns none when no
template matches (JS: undefined). -/
def findTemplate (templates : List InlineTemplate) (templateId : String) : Option InlineTemplate :=
  templates.find? (fun val => strStartsWith val.id templateId)

namespace Configuration

/-- config.ts: Configuration.getJournalConfig.  Its body is a bare
`throw "Not yet implemented"` (the real implementation is commented
out), so every call fails with that string. -/
def getJournalConfig : Except String Root := .error "Not yet implemented"

/-- config.ts: Configuration.getHeaderTemplate.  A single exact lookup
of the compound key `<scope>.entry.header` against the scope field of
the configured inline templates; when no entry matches, the source
dereferences `.template` on undefined (a TypeError), modelled as none.
The inline-templates configuration array is passed explicitly. -/
def getHeaderTemplate (inlineTemplates : List InlineTemplate) (scopeId : Option String) : Option String :=
  let sid := scopeOrDefault scopeId
  (inlineTemplates.find? (fun entry => entry.scope == sid ++ ".entry.header")).map
    (fun entry => entry.template)

/-- config.ts: Configuration.getMemoTemplate.  A single exact lookup of
the compound key `<scope>.entry.memo` against the id field; the promise
resolves with the find result, which is none when no entry matches (the
source resolves undefined, it neither falls back nor rejects). -/
def getMemoTemplate (inlineTemplates : List InlineTemplate) (scopeId : Option String) : Option InlineTemplate :=
  let sid := scopeOrDefault scopeId
  inlineTemplates.find? (fun tpl => tpl.id == sid ++ ".entry.memo")

/-- config.ts: the shared body of the .then handlers of
getFileLinkTemplate and getTaskTemplate, applied to a loaded journal
configuration: find the requested scope, look the template up in its
entry page, and on a miss fall back to the template of the default
scope.  Dereferencing a missing scope (undefined.entry) is a TypeError,
which the surrounding .catch turns into a rejection. -/
def entryTemplateLookup (val : Root) (scopeId : Option String) (templateId : String) :
    Except String (Option InlineTemplate) :=
  match findScope val.scopes scopeId with
  | none => .error "TypeError: cannot read entry of undefined"
  | some scope =>
    match findTemplate scope.entry.templates templateId with
    | some tpl => .ok (some tpl)
    | none =>
      match findScope val.scopes (some SCOPE_DEFAULT) with
      | none => .error "TypeError: cannot read entry of undefined"
      | some ds => .ok (findTemplate ds.entry.templates templateId)

/-- config.ts: Configuration.getFileLinkTemplate — loads the journal
configuration and resolves the "file" entry template with the
default-scope fallback.  Since getJournalConfig always throws, every
call fails with "Not yet implemented". -/
def getFileLinkTemplate (scopeId : Option String) : Except String (Option InlineTemplate) :=
  match getJournalConfig with
  | .error e => .error e
  | .ok val => entryTemplateLookup val scopeId "file"

/-- config.ts: Configuration.getTaskTemplate — identical to
getFileLinkTemplate with template id "task". -/
def getTaskTemplate (scopeId : Option String) : Except String (Option InlineTemplate) :=
  match getJournalConfig with
  | .error e => .error e
  | .ok val => entryTemplateLookup val scopeId "task"

end Configuration

/-- Replace the first occurrence of `pat` inside a character list. -/
def replaceFirstChars (pat rep : List Char) : List Char → List Char
  | [] => []
  | c :: cs =>
    if charsStartWith pat (c :: cs) then rep ++ (c :: cs).drop pat.length
    else c :: replaceFirstChars pat rep cs

/-- JS String.replace with a string pattern: replaces only the first
occurrence of the pattern. -/
def replaceFirst (s pat rep : String) : String :=
  ⟨replaceFirstChars pat.data rep.data s.data⟩

/-- The settlement state of a manually managed Q deferred: unsettled,
resolved, or rejected.  The first settlement wins; later resolve or
reject calls on an already settled deferred are ignored. -/
inductive Settle where
  | pending
  | ok (d : Doc)
  | err (m : String)
deriving Repr, DecidableEq

/-- Settle a deferred with a resolve (.ok) or reject (.error): only a
pending deferred changes state. -/
def Settle.settle : Settle → Except String Doc → Settle
  | .pending, .ok d => .ok d
  | .pending, .error m => .err m
  | s, _ => s

/-- The collaborators the Journal class calls into.  The document
store, user-input boxes, reader, writer, parser and the path/date
utilities live outside src/ (vscode.ts, util.ts, parser.ts,
reader.ts, writer.ts), so each call is answered by a field here; an
Except.error value is a rejected promise and carries the rejection
value (this codebase rejects load calls with the requested path).
pageTemplate and notesPagesTemplate stand for the Configuration
methods getPageTemplate and getNotesPagesTemplate, which journal.ts
calls but which are absent from the config source under src/
(version skew); they are modelled from the spec as the contents of
journal.page-template.md and journal.note-template.md. -/
structure Env where
  userInput : Except String String
  userInputCombo : Except String String
  previousJournalFiles : Except String (List String)
  tokenizeResult : String → Except String Input
  fileForDate : Except String String
  load : String → Except String Doc
  pageTemplate : Except String String
  createSaveLoad : String → Option String → Except String Doc
  formattedDate : String
  referencedFiles : Except String (List String)
  filesInNotesFolder : Except String (List String)
  writeInputToFile : Doc → Input → Except String Doc
  showDocument : Doc → Except String Doc
  notesPagesTemplate : Except String String
  normalizeFilename : String → String
  filePathInDateFolder : String → Except String String
  denormalizeFilename : String → String
  fileInURI : String → String
  devEnabled : Bool

/-- What a run of a Journal method settles to and which effects it
performs: files created through createSaveLoadTextDocument (path and
content; content is none when the source passes a null content), link
lines inserted through writer.insertContent (label and link), error
messages shown through showErrorMessage, and memo writes through
writer.writeInputToFile (recorded with their anchor position). -/
structure Outcome where
  settled : Settle
  createAttempts : List (String × Option String)
  inserted : List (String × String)
  messages : List String
  memoWrites : List (Nat × Nat)
deriving Repr, DecidableEq

/-- The outcome of a pipeline that has produced no settlement and no
effect yet. -/
def Outcome.empty : Outcome :=
  { settled := .pending, createAttempts := [], inserted := [], messages := [], memoWrites := [] }

/-- Merge the effects of two sequential outcomes (settlement is
re-established by the caller). -/
def Outcome.andFx (a b : Outcome) : Outcome :=
  { settled := .pending,
    createAttempts := a.createAttempts ++ b.createAttempts,
    inserted := a.inserted ++ b.inserted,
    messages := a.messages ++ b.messages,
    memoWrites := a.memoWrites ++ b.memoWrites }

/-- The result of one run of synchronizeReferencedFiles: the link
insertions performed and the error messages shown. -/
structure SyncOut where
  inserted : List (String × String)
  messages : List String
deriving Repr, DecidableEq

namespace Journal

/-- journal.ts: the error message synchronizeReferencedFiles shows when
its promise chain fails. -/
def syncMsg (e : String) : String :=
  "Failed to synchronize page with notes folder. Reason: " ++ e

/-- journal.ts: the forEach body of synchronizeReferencedFiles over the
files found in the notes folder.  A file already referenced is skipped
(referencedFiles.find(match == file) and the m == null test).  For a
file not referenced, the source calls config.getFileLinkTemplate():
since getJournalConfig throws synchronously, that call throws, aborting
the forEach and rejecting the surrounding promise, whose catch shows
the sync error message; were a template obtained, the insertContent
call would record a link with label = denormalized filename and link =
"./" + getFileInURI(doc.uri.path) + "/" + file. -/
def syncLoop (env : Env) (doc : Doc) (refs : List String) :
    List String → List (String × String) → SyncOut
  | [], acc => { inserted := acc.reverse, messages := [] }
  | f :: rest, acc =>
    if refs.contains f then syncLoop env doc refs rest acc
    else
      match Configuration.getFileLinkTemplate none with
      | .error e => { inserted := acc.reverse, messages := [syncMsg e] }
      | .ok _ =>
        syncLoop env doc refs rest
          ((env.denormalizeFilename f, "./" ++ env.fileInURI doc.path ++ "/" ++ f) :: acc)

/-- journal.ts: Journal.synchronizeReferencedFiles.  Q.all joins the
referenced-files scan and the notes-folder listing (first rejection
wins, in argument order), then reconciles; any failure is caught and
shown as the sync error message, never rethrown to the caller. -/
def synchronizeReferencedFiles (env : Env) (doc : Doc) : SyncOut :=
  match env.referencedFiles, env.filesInNotesFolder with
  | .error e, _ => { inserted := [], messages := [syncMsg e] }
  | .ok _, .error e => { inserted := [], messages := [syncMsg e] }
  | .ok refs, .ok found => syncLoop env doc refs found []

/-- journal.ts: the catch branch of Journal.getPageForDay.  It receives
the rejection value of the load (bound as `path`) and runs the create
sequence: fetch the page template, substitute the {header} placeholder
with the formatted date, createSaveLoadTextDocument, and resolve the
inner deferred with the created document.  The inner chain has no
catch, so a template or create failure leaves the inner deferred (and
hence the outer one, at its guard state s0) unsettled forever.  On
success the outer .then fires the synchronization and resolves. -/
def gpdCreateBranch (env : Env) (s0 : Settle) (path : String) : Outcome :=
  match env.pageTemplate with
  | .error _ =>
    { settled := s0, createAttempts := [], inserted := [], messages := [], memoWrites := [] }
  | .ok tpl =>
    let content := replaceFirst tpl "{header}" env.formattedDate
    match env.createSaveLoad path (some content) with
    | .error _ =>
      { settled := s0, createAttempts := [(path, some content)], inserted := [],
        messages := [], memoWrites := [] }
    | .ok doc =>
      let sy := synchronizeReferencedFiles env doc
      { settled := s0.settle (.ok doc), createAttempts := [(path, some content)],
        inserted := sy.inserted, messages := sy.messages, memoWrites := [] }

/-- journal.ts: Journal.getPageForDay.  A NaN offset rejects the
deferred with "Journal: Not a valid value for offset" but does not
return, so the load/create chain still runs (its later resolve is
ignored because the deferred is already settled).  The load is
attempted at the path resolved for the date; on any rejection the
create branch runs with the rejection value as the path; on success
the synchronization is fired and the document resolved. -/
def getPageForDay (env : Env) (offset : JSNum) : Outcome :=
  let s0 : Settle :=
    if offset.isNaN then Settle.pending.settle (.error "Journal: Not a valid value for offset")
    else .pending
  match env.fileForDate with
  | .error reason => gpdCreateBranch env s0 reason
  | .ok path =>
    match env.load path with
    | .error reason => gpdCreateBranch env s0 reason
    | .ok doc =>
      let sy := synchronizeReferencedFiles env doc
      { settled := s0.settle (.ok doc), createAttempts := [], inserted := sy.inserted,
        messages := sy.messages, memoWrites := [] }

/-- journal.ts: Journal.addMemo.  The guard
`if (!input.hasMemo() || !input.hasFlags()) deferred.resolve(doc)`
makes the call a no-op unless the Input carries a memo AND at least one
flag; otherwise writer.writeInputToFile(doc, Position(2, 0), input)
persists the memo at the fixed anchor, resolving with the written
document or rejecting with "Failed to add memo". -/
def addMemo (env : Env) (input : Input) (doc : Doc) : Outcome :=
  if !input.hasMemo || !input.hasFlags then
    { settled := .ok doc, createAttempts := [], inserted := [], messages := [], memoWrites := [] }
  else
    match env.writeInputToFile doc input with
    | .ok d =>
      { settled := .ok d, createAttempts := [], inserted := [], messages := [],
        memoWrites := [(2, 0)] }
    | .error _ =>
      { settled := .err "Failed to add memo", createAttempts := [], inserted := [],
        messages := [], memoWrites := [(2, 0)] }

/-- journal.ts: the catch handler of Journal.openDayByInput: a "cancel"
rejection is swallowed silently (the deferred stays pending), any other
error is shown and rejected as a formatted message. -/
def odbiCatch (e : String) (fx : Outcome) : Outcome :=
  if e = "cancel" then { fx with settled := .pending }
  else
    { fx with
      settled := .err ("Failed to open page. Reason: \"" ++ e ++ "\""),
      messages := fx.messages ++ ["Failed to open page. Reason: \"" ++ e ++ "\""] }

/-- journal.ts: Journal.openDayByInput — prompt, tokenize, get the page,
add the memo, show the document; all failures funnel into odbiCatch. -/
def openDayByInput (env : Env) : Outcome :=
  match env.userInput with
  | .error e => odbiCatch e Outcome.empty
  | .ok value =>
    match env.tokenizeResult value with
    | .error e => odbiCatch e Outcome.empty
    | .ok input =>
      let g := getPageForDay env input.offset
      match g.settled with
      | .pending => g
      | .err m => odbiCatch m { g with settled := .pending }
      | .ok doc =>
        let a := addMemo env input doc
        let fx := g.andFx a
        match a.settled with
        | .pending => fx
        | .err m => odbiCatch m fx
        | .ok d2 =>
          match env.showDocument d2 with
          | .error e => odbiCatch e fx
          | .ok ed => { fx with settled := .ok ed }

/-- journal.ts: the catch handler of Journal.openDayByInputOrSelection:
silent on "cancel", otherwise shows and rejects the fixed message
"Failed to translate input into action". -/
def odbiosCatch (e : String) (fx : Outcome) : Outcome :=
  if e = "cancel" then { fx with settled := .pending }
  else
    { fx with
      settled := .err "Failed to translate input into action",
      messages := fx.messages ++ ["Failed to translate input into action"] }

/-- journal.ts: Journal.openDayByInputOrSelection — gather the
selection items (gatherSelection has no catch, so a reader failure
leaves it pending forever), prompt with the combo box, tokenize, get
the page and resolve it. -/
def openDayByInputOrSelection (env : Env) : Outcome :=
  match env.previousJournalFiles with
  | .error _ => Outcome.empty
  | .ok _ =>
    match env.userInputCombo with
    | .error e => odbiosCatch e Outcome.empty
    | .ok value =>
      match env.tokenizeResult value with
      | .error e => odbiosCatch e Outcome.empty
      | .ok input =>
        let g := getPageForDay env input.offset
        match g.settled with
        | .pending => g
        | .err m => odbiosCatch m { g with settled := .pending }
        | .ok doc => { g with settled := .ok doc }

/-- journal.ts: the final catch of Journal.createNote: silent on
"cancel" (no message is ever shown by createNote), otherwise rejects
with the formatted reason. -/
def noteFinalCatch (e : String) (fx : Outcome) : Outcome :=
  if e = "cancel" then { fx with settled := .pending }
  else { fx with settled := .err ("Failed to create a new note. Reason is [" ++ e ++ "]") }

/-- journal.ts: the tail of Journal.createNote after a note document is
available: show it, fire getPageForDay(0) (not awaited, its settlement
is ignored but its effects happen), and resolve the editor. -/
def createNoteShow (env : Env) (doc : Doc) (fx : Outcome) : Outcome :=
  match env.showDocument doc with
  | .error e => noteFinalCatch e fx
  | .ok ed =>
    let g := getPageForDay env (JSNum.int 0)
    { fx.andFx g with settled := .ok ed }

/-- journal.ts: the mid-chain catch of Journal.createNote.  It receives
any upstream rejection value as `filename`: "cancel" is rethrown to the
final catch, anything else is used as the path of a
createSaveLoadTextDocument call with the current content (still null
when the template fetch itself failed). -/
def createNoteMidCatch (env : Env) (e : String) (content : Option String) (fx : Outcome) :
    Outcome :=
  if e = "cancel" then noteFinalCatch "cancel" fx
  else
    match env.createSaveLoad e content with
    | .ok doc =>
      createNoteShow env doc { fx with createAttempts := fx.createAttempts ++ [(e, content)] }
    | .error e2 =>
      noteFinalCatch e2 { fx with createAttempts := fx.createAttempts ++ [(e, content)] }

/-- journal.ts: Journal.createNote — fetch the note template, prompt
for a name, substitute the {content} placeholder, resolve the note path
for today, try to load it, and on a rejection fall into the mid-chain
catch (create the file unless the rejection is "cancel"). -/
def createNote (env : Env) : Outcome :=
  match env.notesPagesTemplate with
  | .error e => createNoteMidCatch env e none Outcome.empty
  | .ok tpl0 =>
    match env.userInput with
    | .error e => createNoteMidCatch env e (some tpl0) Outcome.empty
    | .ok input =>
      let content := replaceFirst tpl0 "{content}" input
      match env.filePathInDateFolder (env.normalizeFilename input) with
      | .error e => createNoteMidCatch env e (some content) Outcome.empty
      | .ok path =>
        match env.load path with
        | .ok doc => createNoteShow env doc Outcome.empty
        | .error e => createNoteMidCatch env e (some content) Outcome.empty

end Journal

namespace InputTokenizer

/-- Split a character stream into words at runs of spaces. -/
def splitWordsChars : List Char → List Char → List String
  | [], acc => if acc.isEmpty then [] else [⟨acc.reverse⟩]
  | c :: cs, acc =>
    if c == ' ' then
      if acc.isEmpty then splitWordsChars cs []
      else (⟨acc.reverse⟩ : String) :: splitWordsChars cs []
    else splitWordsChars cs (c :: acc)

/-- Split a string into its whitespace-separated words. -/
def splitWords (s : String) : List String := splitWordsChars s.data []

/-- Modelled from the spec: InputTokenizer.tokenize (parser.ts is not
under src/).  Spec section 4.2: the raw text is split at the first run
of whitespace into a date/offset token and a remainder; the remainder
is split on the flag sigil "#" into memo text and an ordered set of
flags; empty raw text yields an Input with offset 0 (today) and no
memo; tokenization itself never fails (it is a total function), all
semantic failures are deferred to the DateParser.  The DateParser is
passed as a parameter (spec section 4.1: parse(token, today)); a token
it does not recognize is deferred as a NaN offset, which the isNaN
guard in Journal.getPageForDay then rejects. -/
def tokenize (dateParse : String → Option Int) (raw : String) : Input :=
  match splitWords raw with
  | [] => { offset := JSNum.int 0, memo := none, flags := [] }
  | tok :: rest =>
    let offset :=
      match dateParse tok with
      | some n => JSNum.int n
      | none => JSNum.nan
    let flagWords := rest.filter (fun w => strStartsWith w "#")
    let memoWords := rest.filter (fun w => !strStartsWith w "#")
    { offset := offset,
      memo :=
        if memoWords.isEmpty then none
        else some (String.intercalate " " memoWords),
      flags := flagWords.map (fun f => (⟨f.data.drop 1⟩ : String)) }

end InputTokenizer

/-- A concrete, fully successful collaborator environment used by the
closed witnesses and counterexamples; individual runs override single
fields. -/
def baseEnv : Env :=
  { userInput := .ok "+1",
    userInputCombo := .ok "+1",
    previousJournalFiles := .ok [],
    tokenizeResult := fun _ => .ok { offset := JSNum.int 0, memo := none, flags := [] },
    fileForDate := .ok "/journal/2021/01/01.md",
    load := fun p => .ok ⟨p, "# page"⟩,
    pageTemplate := .ok "# {header}",
    createSaveLoad := fun p c => .ok ⟨p, c.getD "null"⟩,
    formattedDate := "Friday, January 1 2021",
    referencedFiles := .ok [],
    filesInNotesFolder := .ok [],
    writeInputToFile := fun d _ => .ok d,
    showDocument := fun d => .ok d,
    notesPagesTemplate := .ok "{content}",
    normalizeFilename := fun s => s,
    filePathInDateFolder := fun f => .ok ("/journal/2021/01/01/" ++ f),
    denormalizeFilename := fun s => s,
    fileInURI := fun _ => "01",
    devEnabled := false }

end VJ

example : VJ.replaceFirst "# {header}" "{header}" "X" = "# X" := by decide
example : VJ.replaceFirst "a {h} b {h}" "{h}" "X" = "a X b {h}" := by decide
example : VJ.replaceFirst "abc" "{header}" "X" = "abc" := by decide
example : VJ.strStartsWith "#task" "#" = true := by decide
example : VJ.strStartsWith "task" "#" = false := by decide
example : VJ.Configuration.getFileLinkTemplate (some "work") = .error "Not yet implemented" := rfl
example :
    VJ.Configuration.getHeaderTemplate
      [{ scope := "default.entry.header", id := "default.entry.header",
         template := "# HEADER", after := "" }] (some "work") = none := by decide
example :
    VJ.InputTokenizer.tokenize (fun _ => none) "" =
      { offset := VJ.JSNum.int 0, memo := none, flags := [] } := rfl
example :
    VJ.InputTokenizer.tokenize (fun t => if t = "+2" then some 2 else none) "+2 buy milk #task" =
      { offset := VJ.JSNum.int 2, memo := some "buy milk", flags := ["task"] } := by decide
example :
    (VJ.Journal.getPageForDay VJ.baseEnv (VJ.JSNum.int 0)).settled =
      VJ.Settle.ok ⟨"/journal/2021/01/01.md", "# page"⟩ := by decide
example :
    VJ.Journal.getPageForDay { VJ.baseEnv with load := fun p => .error p } (VJ.JSNum.int 0) =
      { settled := VJ.Settle.ok ⟨"/journal/2021/01/01.md", "# Friday, January 1 2021"⟩,
        createAttempts := [("/journal/2021/01/01.md", some "# Friday, January 1 2021")],
        inserted := [], messages := [], memoWrites := [] } := by decide

namespace VJ

/-- Helper: every run of the synchronization loop performs no insertion
beyond its accumulator: the file-link template lookup fails with "Not
yet implemented" at the first file that would need one, aborting the
loop before any insertContent call. -/
theorem Journal.syncLoop_inserted (env : Env) (doc : Doc) (refs : List String) :
    ∀ (l : List String) (acc : List (String × String)),
      (Journal.syncLoop env doc refs l acc).inserted = acc.reverse := by
  intro l
  induction l with
  | nil => intro acc; rfl
  | cons f rest ih =>
    intro acc
    by_cases hc : f ∈ refs
    · simp [Journal.syncLoop, hc, ih]
    · simp [Journal.syncLoop, hc, Configuration.getFileLinkTemplate,
        Configuration.getJournalConfig]

/-- C5: synchronization is idempotent — running synchronizeReferencedFiles
twice with no intervening changes performs no edits the second time: in
this code every run (so in particular the second) appends zero link
lines, because the only place links are added is behind the file-link
template lookup, which always fails before any insertion, and no run
ever removes or duplicates an existing link line. -/
theorem synchronize_idempotent (env : Env) (doc : Doc) :
    (Journal.synchronizeReferencedFiles env doc).inserted = [] := by
  cases h1 : env.referencedFiles with
  | error e => simp [Journal.synchronizeReferencedFiles, h1]
  | ok refs =>
    cases h2 : env.filesInNotesFolder with
    | error e => simp [Journal.synchronizeReferencedFiles, h1, h2]
    | ok found =>
      simp [Journal.synchronizeReferencedFiles, h1, h2, Journal.syncLoop_inserted]

/-- C1 (code bug): an Input carrying a memo but no flags is dropped.
The guard uses a disjunction (!hasMemo() || !hasFlags()), so addMemo is
a no-op unless a memo AND a flag are both present, while the spec and
the method documentation (it adds a new memo to the page of today)
require insertion whenever a memo is present.  First conjunct: the
no-op half of the claim holds (no memo, no flags: page returned unchanged, no
write).  Second conjunct: the failing input — memo "buy milk", no
flags — is also returned unchanged with no write.  Third conjunct: the
memo write (at the fixed anchor, line 2 column 0) happens only when a
flag accompanies the memo. -/
theorem addMemo_drops_plain_memo :
    (Journal.addMemo baseEnv { offset := JSNum.int 0, memo := none, flags := [] }
        ⟨"/journal/2021/01/01.md", "# page"⟩ =
      { settled := .ok ⟨"/journal/2021/01/01.md", "# page"⟩, createAttempts := [],
        inserted := [], messages := [], memoWrites := [] }) ∧
    (Journal.addMemo baseEnv { offset := JSNum.int 0, memo := some "buy milk", flags := [] }
        ⟨"/journal/2021/01/01.md", "# page"⟩ =
      { settled := .ok ⟨"/journal/2021/01/01.md", "# page"⟩, createAttempts := [],
        inserted := [], messages := [], memoWrites := [] }) ∧
    (Journal.addMemo baseEnv
        { offset := JSNum.int 0, memo := some "buy milk", flags := ["task"] }
        ⟨"/journal/2021/01/01.md", "# page"⟩).memoWrites = [(2, 0)] := by
  refine ⟨by decide, by decide, by decide⟩

/-- The environment of the C3 run: one physical file "note.md" in the
notes folder, no file referenced in the page body. -/
def envC3 : Env := { baseEnv with filesInNotesFolder := .ok ["note.md"] }

/-- C3 (code bug): with one unreferenced physical file in the notes
folder, the file-link template is never successfully obtained —
getJournalConfig throws "Not yet implemented", so getFileLinkTemplate
fails, no link is rendered or appended, and synchronization surfaces
the failure message instead. -/
theorem sync_never_appends_file_links :
    Journal.synchronizeReferencedFiles envC3 ⟨"/journal/2021/01/01.md", "# page"⟩ =
      { inserted := [],
        messages :=
          ["Failed to synchronize page with notes folder. Reason: Not yet implemented"] } ∧
    Configuration.getFileLinkTemplate none = .error "Not yet implemented" := by
  refine ⟨by decide, rfl⟩

/-- C9: tokenizing the empty string never fails (tokenize is a total
function) and yields an Input with offset 0 (today), no memo and no
flags, whatever the date parser does. -/
theorem tokenize_empty_input (dateParse : String → Option Int) :
    InputTokenizer.tokenize dateParse "" =
      { offset := JSNum.int 0, memo := none, flags := [] } := rfl

/-- Helper: the create branch leaves an already rejected deferred
rejected (the first settlement wins). -/
theorem Journal.gpdCreateBranch_settled_err (env : Env) (m path : String) :
    (Journal.gpdCreateBranch env (Settle.err m) path).settled = Settle.err m := by
  cases ht : env.pageTemplate with
  | error e => simp [Journal.gpdCreateBranch, ht]
  | ok tpl =>
    cases hcr : env.createSaveLoad path (some (replaceFirst tpl "{header}" env.formattedDate)) with
    | error e => simp [Journal.gpdCreateBranch, ht, hcr]
    | ok d => simp [Journal.gpdCreateBranch, ht, hcr, Settle.settle]

/-- Helper: the effects of the create branch do not depend on the prior
settlement state of the deferred. -/
theorem Journal.gpdCreateBranch_fx (env : Env) (s0 s1 : Settle) (path : String) :
    (Journal.gpdCreateBranch env s0 path).createAttempts =
        (Journal.gpdCreateBranch env s1 path).createAttempts ∧
    (Journal.gpdCreateBranch env s0 path).inserted =
        (Journal.gpdCreateBranch env s1 path).inserted ∧
    (Journal.gpdCreateBranch env s0 path).messages =
        (Journal.gpdCreateBranch env s1 path).messages := by
  cases ht : env.pageTemplate with
  | error e => simp [Journal.gpdCreateBranch, ht]
  | ok tpl =>
    cases hcr : env.createSaveLoad path (some (replaceFirst tpl "{header}" env.formattedDate)) with
    | error e => simp [Journal.gpdCreateBranch, ht, hcr]
    | ok d => simp [Journal.gpdCreateBranch, ht, hcr]

/-- C10: a NaN offset rejects the promise of getPageForDay with "Journal:
Not a valid value for offset", and since the guard does not return, the
load/create sequence is still executed after the rejection rather than
skipped: the run performs exactly the file creations, link insertions
and messages of a run with any integer offset against the same
collaborators; only its later, ignored settlement differs. -/
theorem nan_offset_rejects_but_still_runs (env : Env) (n : Int) :
    (Journal.getPageForDay env JSNum.nan).settled =
        Settle.err "Journal: Not a valid value for offset" ∧
    (Journal.getPageForDay env JSNum.nan).createAttempts =
        (Journal.getPageForDay env (JSNum.int n)).createAttempts ∧
    (Journal.getPageForDay env JSNum.nan).inserted =
        (Journal.getPageForDay env (JSNum.int n)).inserted ∧
    (Journal.getPageForDay env JSNum.nan).messages =
        (Journal.getPageForDay env (JSNum.int n)).messages := by
  unfold Journal.getPageForDay
  simp only [JSNum.isNaN, Settle.settle, Bool.false_eq_true, if_false, if_true, ite_false,
    ite_true]
  cases hf : env.fileForDate with
  | error r =>
    simp only [hf]
    exact ⟨Journal.gpdCreateBranch_settled_err env _ r,
      (Journal.gpdCreateBranch_fx env _ _ r).1,
      (Journal.gpdCreateBranch_fx env _ _ r).2.1,
      (Journal.gpdCreateBranch_fx env _ _ r).2.2⟩
  | ok path =>
    cases hl : env.load path with
    | error r =>
      simp only [hf, hl]
      exact ⟨Journal.gpdCreateBranch_settled_err env _ r,
        (Journal.gpdCreateBranch_fx env _ _ r).1,
        (Journal.gpdCreateBranch_fx env _ _ r).2.1,
        (Journal.gpdCreateBranch_fx env _ _ r).2.2⟩
    | ok doc => simp [hf, hl, Settle.settle]

/-- Helper: the messages of the synchronization loop — empty when every
found file is already referenced, otherwise the single sync error
message produced by the always-failing template lookup at the first
unreferenced file. -/
theorem Journal.syncLoop_messages (env : Env) (doc : Doc) (refs : List String) :
    ∀ (l : List String) (acc : List (String × String)),
      (Journal.syncLoop env doc refs l acc).messages =
        if ∀ f ∈ l, f ∈ refs then [] else [Journal.syncMsg "Not yet implemented"] := by
  intro l
  induction l with
  | nil => intro acc; simp [Journal.syncLoop]
  | cons f rest ih =>
    intro acc
    by_cases hc : f ∈ refs
    · simp [Journal.syncLoop, hc, ih]
    · simp [Journal.syncLoop, hc, Configuration.getFileLinkTemplate,
        Configuration.getJournalConfig]

/-- C6: a failure inside synchronizeReferencedFiles is never fatal to
getPageForDay: whatever the synchronization collaborators do — in
particular when the referenced-file scan fails, when the notes-folder
listing fails, or when the file-link template lookup fails (which it
does whenever some found file is unreferenced, aborting before any
insertion) — the promise still resolves with the loaded document, and
the synchronization failure surfaces only as the non-blocking sync
error message. -/
theorem sync_failure_not_fatal (env : Env) (offset : JSNum) (path : String) (doc : Doc)
    (hn : offset.isNaN = false)
    (hf : env.fileForDate = .ok path)
    (hl : env.load path = .ok doc) :
    (Journal.getPageForDay env offset).settled = Settle.ok doc ∧
    (Journal.getPageForDay env offset).messages =
        (Journal.synchronizeReferencedFiles env doc).messages ∧
    (∀ e, env.referencedFiles = .error e →
        (Journal.getPageForDay env offset).messages = [Journal.syncMsg e]) ∧
    (∀ refs e, env.referencedFiles = .ok refs → env.filesInNotesFolder = .error e →
        (Journal.getPageForDay env offset).messages = [Journal.syncMsg e]) ∧
    (∀ refs found, env.referencedFiles = .ok refs → env.filesInNotesFolder = .ok found →
        (∃ f ∈ found, f ∉ refs) →
        (Journal.getPageForDay env offset).messages =
          [Journal.syncMsg "Not yet implemented"]) := by
  have hmain : Journal.getPageForDay env offset =
      { settled := Settle.ok doc, createAttempts := [],
        inserted := (Journal.synchronizeReferencedFiles env doc).inserted,
        messages := (Journal.synchronizeReferencedFiles env doc).messages,
        memoWrites := [] } := by
    simp [Journal.getPageForDay, hf, hl, hn, Settle.settle]
  refine ⟨by rw [hmain], by rw [hmain], ?_, ?_, ?_⟩
  · intro e he
    rw [hmain]
    simp [Journal.synchronizeReferencedFiles, he]
  · intro refs e h1 h2
    rw [hmain]
    simp [Journal.synchronizeReferencedFiles, h1, h2]
  · intro refs found h1 h2 hex
    rw [hmain]
    simp only [Journal.synchronizeReferencedFiles, h1, h2, Journal.syncLoop_messages]
    obtain ⟨f, hf1, hf2⟩ := hex
    rw [if_neg]
    intro hall
    exact hf2 (hall f hf1)

/-- The environment of the first C6 witness run: the page loads but the
referenced-file scan fails. -/
def envC6 : Env := { baseEnv with referencedFiles := .error "EIO: scan failed" }

/-- The environment of the second C6 witness run: the page loads but
the notes-folder listing fails. -/
def envC6b : Env := { baseEnv with filesInNotesFolder := .error "EIO: listing failed" }

/-- The environment of the third C6 witness run: both collection steps
succeed but the folder holds an unreferenced file, so the file-link
template lookup fails. -/
def envC6c : Env := { baseEnv with filesInNotesFolder := .ok ["orphan.md"] }

/-- Witness for sync_failure_not_fatal: three concrete runs — scan
failure, listing failure and template-lookup failure — each still
resolve with the loaded page and only show the sync message. -/
theorem sync_failure_not_fatal_witness :
    ((Journal.getPageForDay envC6 (JSNum.int 0)).settled =
        Settle.ok ⟨"/journal/2021/01/01.md", "# page"⟩ ∧
      (Journal.getPageForDay envC6 (JSNum.int 0)).messages =
        [Journal.syncMsg "EIO: scan failed"]) ∧
    ((Journal.getPageForDay envC6b (JSNum.int 0)).settled =
        Settle.ok ⟨"/journal/2021/01/01.md", "# page"⟩ ∧
      (Journal.getPageForDay envC6b (JSNum.int 0)).messages =
        [Journal.syncMsg "EIO: listing failed"]) ∧
    ((Journal.getPageForDay envC6c (JSNum.int 0)).settled =
        Settle.ok ⟨"/journal/2021/01/01.md", "# page"⟩ ∧
      (Journal.getPageForDay envC6c (JSNum.int 0)).messages =
        [Journal.syncMsg "Not yet implemented"]) := by
  have h1 := sync_failure_not_fatal envC6 (JSNum.int 0) "/journal/2021/01/01.md"
    ⟨"/journal/2021/01/01.md", "# page"⟩ rfl rfl rfl
  have h2 := sync_failure_not_fatal envC6b (JSNum.int 0) "/journal/2021/01/01.md"
    ⟨"/journal/2021/01/01.md", "# page"⟩ rfl rfl rfl
  have h3 := sync_failure_not_fatal envC6c (JSNum.int 0) "/journal/2021/01/01.md"
    ⟨"/journal/2021/01/01.md", "# page"⟩ rfl rfl rfl
  exact ⟨⟨h1.1, h1.2.2.1 "EIO: scan failed" rfl⟩,
    ⟨h2.1, h2.2.2.2.1 [] "EIO: listing failed" rfl rfl⟩,
    ⟨h3.1, h3.2.2.2.2 [] ["orphan.md"] rfl rfl ⟨"orphan.md", by decide, by decide⟩⟩⟩

/-- C8: when the load fails because the file is absent (the store
rejects with the requested path) and the store conforms to the
createAndLoad contract, the create branch renders the page template
with the {header} placeholder replaced by the formatted date for the
requested offset, creates the file with exactly that content, and the
created document is then resolved. -/
theorem create_branch_renders_template (env : Env) (offset : JSNum) (path tpl : String)
    (hn : offset.isNaN = false)
    (hf : env.fileForDate = .ok path)
    (hl : env.load path = .error path)
    (ht : env.pageTemplate = .ok tpl)
    (hc : ∀ p c, env.createSaveLoad p (some c) = .ok ⟨p, c⟩) :
    (Journal.getPageForDay env offset).settled =
        Settle.ok ⟨path, replaceFirst tpl "{header}" env.formattedDate⟩ ∧
    (Journal.getPageForDay env offset).createAttempts =
        [(path, some (replaceFirst tpl "{header}" env.formattedDate))] := by
  simp [Journal.getPageForDay, Journal.gpdCreateBranch, hf, hl, hn, ht, hc, Settle.settle]

/-- The environment of the C8 witness: every load rejects with the
requested path (the file-absent convention of this codebase). -/
def envC8 : Env := { baseEnv with load := fun p => .error p }

/-- Witness for create_branch_renders_template at a concrete run: the
created page carries the template with the header substituted. -/
theorem create_branch_renders_template_witness :
    (Journal.getPageForDay envC8 (JSNum.int 0)).settled =
        Settle.ok ⟨"/journal/2021/01/01.md", "# Friday, January 1 2021"⟩ ∧
    (Journal.getPageForDay envC8 (JSNum.int 0)).createAttempts =
        [("/journal/2021/01/01.md", some "# Friday, January 1 2021")] := by
  have h := create_branch_renders_template envC8 (JSNum.int 0) "/journal/2021/01/01.md"
    "# {header}" rfl rfl rfl rfl (fun p c => rfl)
  exact h

/-- The environment of the C2 run: the load rejects with a permission
error, a reason other than "file not found". -/
def envC2 : Env := { baseEnv with load := fun _ => .error "EACCES: permission denied" }

/-- C2 counterexample: the load of the page path fails with a
permission error — not a "file not found" — yet getPageForDay does not
reject with an IOError and does not keep the create branch from
running: the indiscriminate catch takes the create/template branch
(even using the rejection reason as the file path), a file is created,
and the promise resolves with the created document. -/
theorem load_failure_counterexample :
    Journal.getPageForDay envC2 (JSNum.int 0) =
      { settled := Settle.ok ⟨"EACCES: permission denied", "# Friday, January 1 2021"⟩,
        createAttempts := [("EACCES: permission denied", some "# Friday, January 1 2021")],
        inserted := [], messages := [], memoWrites := [] } := by decide

/-- C2 (amended): getPageForDay does not discriminate load-failure
reasons: every load rejection — "file not found" or any other I/O
failure — takes the create/template branch, with the rejection value
used as the file path; when the template fetch and the creation succeed
the promise resolves with the created document instead of rejecting
with an IOError (and when either of them fails the promise never
settles at all). -/
theorem load_failure_amended (env : Env) (offset : JSNum) (path reason tpl : String)
    (hn : offset.isNaN = false)
    (hf : env.fileForDate = .ok path)
    (hl : env.load path = .error reason)
    (ht : env.pageTemplate = .ok tpl)
    (hc : ∀ p c, env.createSaveLoad p (some c) = .ok ⟨p, c⟩) :
    (Journal.getPageForDay env offset).settled =
        Settle.ok ⟨reason, replaceFirst tpl "{header}" env.formattedDate⟩ ∧
    (Journal.getPageForDay env offset).createAttempts =
        [(reason, some (replaceFirst tpl "{header}" env.formattedDate))] := by
  simp [Journal.getPageForDay, Journal.gpdCreateBranch, hf, hl, hn, ht, hc, Settle.settle]

/-- Witness for load_failure_amended at the concrete permission-denied
environment. -/
theorem load_failure_amended_witness :
    (Journal.getPageForDay envC2 (JSNum.int 0)).settled =
        Settle.ok ⟨"EACCES: permission denied", "# Friday, January 1 2021"⟩ ∧
    (Journal.getPageForDay envC2 (JSNum.int 0)).createAttempts =
        [("EACCES: permission denied", some "# Friday, January 1 2021")] := by
  have h := load_failure_amended envC2 (JSNum.int 0) "/journal/2021/01/01.md"
    "EACCES: permission denied" "# {header}" rfl rfl rfl rfl (fun p c => rfl)
  exact h

/-- C4 counterexample: only the header template of the default scope is
configured; the claim says the header lookup for scope "work" falls
back to it, but Configuration.getHeaderTemplate performs a single exact
lookup of "work.entry.header" and fails (dereferences undefined),
yielding nothing instead of the default template "# HEADER". -/
theorem template_fallback_counterexample :
    Configuration.getHeaderTemplate
      [{ scope := "default.entry.header", id := "default.entry.header",
         template := "# HEADER", after := "" }] (some "work") = none := by decide

/-- C4 (amended): of the four template lookups, only the file-link and
task lookups implement the default-scope fallback, and only inside
their resolution logic over a loaded journal configuration (they fall
back when the named scope exists but lacks the template); at runtime
both always fail with "Not yet implemented" because getJournalConfig is
unimplemented.  getHeaderTemplate performs a single exact lookup and
fails (yields nothing) when the scope-specific entry is absent, and
getMemoTemplate performs a single exact lookup and resolves with
nothing when its entry is absent — neither consults the default
scope. -/
theorem template_fallback_amended :
    (∀ (tpls : List InlineTemplate) (s : Option String),
        (∀ e ∈ tpls, e.scope ≠ scopeOrDefault s ++ ".entry.header") →
        Configuration.getHeaderTemplate tpls s = none) ∧
    (∀ (tpls : List InlineTemplate) (s : Option String),
        (∀ e ∈ tpls, e.id ≠ scopeOrDefault s ++ ".entry.memo") →
        Configuration.getMemoTemplate tpls s = none) ∧
    (∀ s, Configuration.getFileLinkTemplate s = .error "Not yet implemented") ∧
    (∀ s, Configuration.getTaskTemplate s = .error "Not yet implemented") ∧
    (∀ (root : Root) (s : Option String) (tid : String) (scope ds : Scope),
        findScope root.scopes s = some scope →
        findTemplate scope.entry.templates tid = none →
        findScope root.scopes (some SCOPE_DEFAULT) = some ds →
        Configuration.entryTemplateLookup root s tid =
          .ok (findTemplate ds.entry.templates tid)) := by
  refine ⟨?_, ?_, fun s => rfl, fun s => rfl, ?_⟩
  · intro tpls s h
    have hf : tpls.find? (fun entry => entry.scope == scopeOrDefault s ++ ".entry.header")
        = none := by
      rw [List.find?_eq_none]
      intro e he
      simp only [beq_iff_eq]
      exact h e he
    simp [Configuration.getHeaderTemplate, hf]
  · intro tpls s h
    have hf : tpls.find? (fun tpl => tpl.id == scopeOrDefault s ++ ".entry.memo") = none := by
      rw [List.find?_eq_none]
      intro e he
      simp only [beq_iff_eq]
      exact h e he
    simp [Configuration.getMemoTemplate, hf]
  · intro root s tid scope ds h1 h2 h3
    simp [Configuration.entryTemplateLookup, h1, h2, h3]

/-- The "work" scope of the C4 witness configuration: present but with
no entry templates. -/
def workScopeC4 : Scope :=
  { name := "work", note := { templates := [], path := "", file := "" },
    entry := { templates := [], path := "", file := "" } }

/-- The default scope of the C4 witness configuration: carries the file
link template. -/
def defaultScopeC4 : Scope :=
  { name := "default", note := { templates := [], path := "", file := "" },
    entry :=
      { templates :=
          [{ scope := "default", id := "file",
             template := "- [{label}]({link})", after := "" }],
        path := "", file := "" } }

/-- The journal configuration of the C4 witness. -/
def rootC4 : Root := { scopes := [workScopeC4, defaultScopeC4] }

/-- Witness for template_fallback_amended at concrete configurations:
the header and memo lookups miss without falling back, the file-link
and task lookups fail with "Not yet implemented", and the resolution
logic falls back from the template-less "work" scope to the default
scope and finds the file template there. -/
theorem template_fallback_amended_witness :
    Configuration.getHeaderTemplate
      [{ scope := "default.entry.header", id := "default.entry.header",
         template := "# H", after := "" }] (some "work") = none ∧
    Configuration.getMemoTemplate
      [{ scope := "default.entry.memo", id := "default.entry.memo",
         template := "- MEMO", after := "" }] (some "work") = none ∧
    Configuration.getFileLinkTemplate (some "work") = .error "Not yet implemented" ∧
    Configuration.getTaskTemplate none = .error "Not yet implemented" ∧
    Configuration.entryTemplateLookup rootC4 (some "work") "file" =
      .ok (some { scope := "default", id := "file",
                  template := "- [{label}]({link})", after := "" }) := by
  refine ⟨?_, ?_, ?_, ?_, ?_⟩
  · exact template_fallback_amended.1 _ _ (by decide)
  · exact template_fallback_amended.2.1 _ _ (by decide)
  · exact template_fallback_amended.2.2.1 (some "work")
  · exact template_fallback_amended.2.2.2.1 none
  · exact template_fallback_amended.2.2.2.2 rootC4 (some "work") "file" workScopeC4
      defaultScopeC4 (by decide) (by decide) (by decide)

/-- C7: user cancellation of the interactive prompt is silent: with the
prompt rejecting "cancel", each of the three interactive pipelines
performs no file system mutation, shows no error message, and leaves
its promise unrejected (it stays pending) — the empty outcome. -/
theorem cancel_is_silent (env : Env) (tpl : String)
    (h1 : env.userInput = .error "cancel")
    (h2 : env.userInputCombo = .error "cancel")
    (h3 : env.notesPagesTemplate = .ok tpl) :
    Journal.openDayByInput env = Outcome.empty ∧
    Journal.openDayByInputOrSelection env = Outcome.empty ∧
    Journal.createNote env = Outcome.empty := by
  refine ⟨?_, ?_, ?_⟩
  · simp [Journal.openDayByInput, h1, Journal.odbiCatch, Outcome.empty]
  · cases hp : env.previousJournalFiles with
    | error e => simp [Journal.openDayByInputOrSelection, hp]
    | ok fs =>
      simp [Journal.openDayByInputOrSelection, hp, h2, Journal.odbiosCatch, Outcome.empty]
  · simp [Journal.createNote, h3, h1, Journal.createNoteMidCatch, Journal.noteFinalCatch,
      Outcome.empty]

/-- The environment of the C7 witness: both interactive prompts are
cancelled by the user. -/
def envC7 : Env :=
  { baseEnv with userInput := .error "cancel", userInputCombo := .error "cancel" }

/-- Witness for cancel_is_silent at the concrete cancelled
environment. -/
theorem cancel_is_silent_witness :
    Journal.openDayByInput envC7 = Outcome.empty ∧
    Journal.openDayByInputOrSelection envC7 = Outcome.empty ∧
    Journal.createNote envC7 = Outcome.empty :=
  cancel_is_silent envC7 "{content}" rfl rfl rfl

end VJ
